import Mathlib

/-!
Verification of the pdf-processor job queue and worker orchestration core.

Shallow embedding of src/backend/app/models.py, redis_client.py and
worker.py.  Redis state is modelled explicitly: the job stream, the
consumer group (delivery cursor plus pending-entry list), the job hashes
and the result store with expiry times.  Machine time instants are
abstracted to Nat ticks; ISO timestamp strings are carried opaquely.
Operations that can raise (RedisError and friends) take an optional
injected fault; with fault `none` they perform the pure state update the
Python code performs on a healthy connection.
-/

namespace PdfProcessor

/-! ## models.py -/

/-- ParserType enum from models.py. -/
inductive ParserType
  | pypdf
  | gemini
  | mistral
deriving DecidableEq, Repr

/-- The .value of a ParserType member. -/
def ParserType.value : ParserType → String
  | .pypdf => "pypdf"
  | .gemini => "gemini"
  | .mistral => "mistral"

/-- JobStatus enum from models.py. -/
inductive JobStatus
  | pending
  | processing
  | completed
  | failed
deriving DecidableEq, Repr

/-- The .value of a JobStatus member. -/
def JobStatus.value : JobStatus → String
  | .pending => "pending"
  | .processing => "processing"
  | .completed => "completed"
  | .failed => "failed"

/-- One page dict produced by a parser: keys "page" and "content". -/
structure PageDict where
  page : String
  content : String
deriving DecidableEq, Repr

/-- ProcessingResult pydantic model (models.py).  processing_time_seconds
is a float in the source; time is abstracted to Nat ticks here, so the
duration is the tick difference. -/
structure ProcessingResult where
  job_id : String
  status : JobStatus
  filename : String
  parser : ParserType
  pages : List PageDict
  summary : Option String
  error : Option String
  timestamp : String
  processing_time_seconds : Option Nat
deriving DecidableEq, Repr

/-- A Python exception value: class name and message. -/
structure PyExc where
  name : String
  msg : String
deriving DecidableEq, Repr

/-- f-string used by process_job for error messages:
type(e).__name__ ++ ": " ++ str(e). -/
def PyExc.str (e : PyExc) : String := e.name ++ ": " ++ e.msg

/-! ## Redis state -/

/-- A job:{job_id} hash.  Redis hashes are string-field maps; only these
five fields are ever written, so each is an optional string (none means
the field is absent from the hash). -/
structure JobHash where
  status : Option String
  filename : Option String
  parser : Option String
  timestamp : Option String
  error : Option String
deriving DecidableEq, Repr

/-- The hash with no fields (equivalently: the key does not exist). -/
def JobHash.empty : JobHash := ⟨none, none, none, none, none⟩

/-- An entry of the pdf-jobs stream: XADD-assigned id plus payload. -/
structure StreamEntry where
  id : Nat
  job_id : String
  filename : String
  parser : String
deriving DecidableEq, Repr

/-- Consumer-group bookkeeping: last-delivered cursor (0 = start of the
log) and the pending-entry list of delivered, unacknowledged ids. -/
structure GroupState where
  cursor : Nat
  pending : List Nat
deriving DecidableEq, Repr

/-- A stored result value with its absolute expiry tick (SETEX). -/
structure StoredResult where
  value : ProcessingResult
  expiresAt : Nat
deriving DecidableEq, Repr

/-- The whole Redis state used by this core. -/
structure RedisState where
  entries : List StreamEntry
  nextId : Nat
  group : Option GroupState
  jobs : List (String × JobHash)
  results : List (String × StoredResult)
deriving DecidableEq, Repr

/-- Fresh Redis instance: empty stream, no group, no keys. -/
def RedisState.empty : RedisState := ⟨[], 1, none, [], []⟩

/-! Association-list helpers modelling the Redis keyspace. -/

/-- Key lookup. -/
def getAssoc {α : Type} : List (String × α) → String → Option α
  | [], _ => none
  | (k2, v) :: rest, k => if k2 = k then some v else getAssoc rest k

/-- Key write (replace or append). -/
def setAssoc {α : Type} : List (String × α) → String → α → List (String × α)
  | [], k, v => [(k, v)]
  | (k2, v2) :: rest, k, v =>
    if k2 = k then (k, v) :: rest else (k2, v2) :: setAssoc rest k v

/-- Key delete. -/
def delAssoc {α : Type} (l : List (String × α)) (k : String) : List (String × α) :=
  l.filter (fun p => if p.1 = k then false else true)

/-- Substring check (Python `in` on strings). -/
def strContainsB (needle hay : String) : Bool :=
  hay.toList.tails.any (fun t => needle.toList.isPrefixOf t)

/-! ## redis_client.py operations -/

/-- add_job_to_stream: XADD of the entry payload, returning the new id. -/
def add_job_to_stream (st : RedisState) (job_id filename : String)
    (parser : ParserType) : Nat × RedisState :=
  (st.nextId,
   { st with
     entries := st.entries ++ [⟨st.nextId, job_id, filename, parser.value⟩],
     nextId := st.nextId + 1 })

/-- Message of the ResponseError XGROUP CREATE raises on a duplicate group. -/
def busyGroupMsg : String := "BUSYGROUP Consumer Group name already exists"

/-- XGROUP CREATE with id=0 and mkstream=True.  An injected infra fault
(RedisError or other ResponseError) raises instead; a duplicate group
raises the BUSYGROUP ResponseError; otherwise the group is created
reading from the start of the log. -/
def xgroup_create (infra : Option PyExc) (st : RedisState) :
    Except PyExc RedisState :=
  match infra with
  | some e => .error e
  | none =>
    match st.group with
    | some _ => .error ⟨"ResponseError", busyGroupMsg⟩
    | none => .ok { st with group := some ⟨0, []⟩ }

/-- create_consumer_group: calls xgroup_create; a ResponseError whose
message contains BUSYGROUP is swallowed (group already exists), every
other error re-raises. -/
def create_consumer_group (infra : Option PyExc) (st : RedisState) :
    Except PyExc RedisState :=
  match xgroup_create infra st with
  | .ok st2 => .ok st2
  | .error e =>
    if e.name == "ResponseError" && strContainsB "BUSYGROUP" e.msg then .ok st
    else .error e

/-- A parsed job dict as returned by read_jobs_from_stream. -/
structure ClaimedJob where
  message_id : Nat
  job_id : String
  filename : String
  parser : String
deriving DecidableEq, Repr

/-- XREADGROUP with the special id: deliver up to count entries newer
than the group cursor, append them to the pending list and advance the
cursor.  none models the NOGROUP error. -/
def xreadgroup (st : RedisState) (count : Nat) :
    Option (List StreamEntry × RedisState) :=
  match st.group with
  | none => none
  | some g =>
    let delivered := (st.entries.filter (fun e => g.cursor < e.id)).take count
    match delivered with
    | [] => some ([], st)
    | _ =>
      let newCursor := (delivered.map (·.id)).foldl max g.cursor
      some (delivered,
        { st with group := some ⟨newCursor, g.pending ++ delivered.map (·.id)⟩ })

/-- read_jobs_from_stream: XREADGROUP plus extraction of the job dicts. -/
def read_jobs_from_stream (st : RedisState) (count : Nat) :
    Except PyExc (List ClaimedJob × RedisState) :=
  match xreadgroup st count with
  | none => .error ⟨"ResponseError", "NOGROUP No such consumer group"⟩
  | some (delivered, st2) =>
    .ok (delivered.map (fun e => ⟨e.id, e.job_id, e.filename, e.parser⟩), st2)

/-- Pure effect of XACK: remove the id from the pending list (idempotent;
unknown ids and a missing group are not errors). -/
def acknowledgeCore (st : RedisState) (message_id : Nat) : RedisState :=
  match st.group with
  | none => st
  | some g => { st with group := some { g with pending := g.pending.erase message_id } }

/-- acknowledge_job with an optional injected RedisError. -/
def acknowledge_job (fault : Option PyExc) (st : RedisState)
    (message_id : Nat) : Except PyExc RedisState :=
  match fault with
  | some e => .error e
  | none => .ok (acknowledgeCore st message_id)

/-- create_job_hash: HSET of all five fields (status defaults to PENDING
at the call sites; nowIso is datetime.utcnow().isoformat()). -/
def create_job_hash (st : RedisState) (job_id filename : String)
    (parser : ParserType) (status : JobStatus) (nowIso : String) : RedisState :=
  { st with
    jobs := setAssoc st.jobs ("job:" ++ job_id)
      ⟨some status.value, some filename, some parser.value, some nowIso, some ""⟩ }

/-- Pure effect of get_job_status: HGETALL, with the empty hash reported
as None (Python falsiness of the empty dict). -/
def getJobStatusCore (st : RedisState) (job_id : String) : Option JobHash :=
  match getAssoc st.jobs ("job:" ++ job_id) with
  | none => none
  | some h => if h = JobHash.empty then none else some h

/-- get_job_status with an optional injected RedisError. -/
def get_job_status (fault : Option PyExc) (st : RedisState) (job_id : String) :
    Except PyExc (Option JobHash) :=
  match fault with
  | some e => .error e
  | none => .ok (getJobStatusCore st job_id)

/-- Python truthiness of the optional error argument (`if error:`). -/
def errTruthy : Option String → Bool
  | none => false
  | some s => if s = "" then false else true

/-- Pure effect of update_job_status: HSET of the status field, and of
the error field only when a truthy error was supplied.  HSET creates the
hash when the key is absent. -/
def updateJobStatusCore (st : RedisState) (job_id : String)
    (status : JobStatus) (error : Option String) : RedisState :=
  let base := (getAssoc st.jobs ("job:" ++ job_id)).getD JobHash.empty
  let h1 := { base with status := some status.value }
  let h2 := if errTruthy error then { h1 with error := error } else h1
  { st with jobs := setAssoc st.jobs ("job:" ++ job_id) h2 }

/-- update_job_status with an optional injected RedisError. -/
def update_job_status (fault : Option PyExc) (st : RedisState)
    (job_id : String) (status : JobStatus) (error : Option String) :
    Except PyExc RedisState :=
  match fault with
  | some e => .error e
  | none => .ok (updateJobStatusCore st job_id status error)

/-- Pure effect of store_result: SETEX of the serialized result with the
configured TTL, replacing any prior value.  now is the write tick. -/
def storeResultCore (st : RedisState) (result : ProcessingResult)
    (now ttl : Nat) : RedisState :=
  { st with
    results := setAssoc st.results ("result:" ++ result.job_id) ⟨result, now + ttl⟩ }

/-- store_result with an optional injected RedisError. -/
def store_result (fault : Option PyExc) (st : RedisState)
    (result : ProcessingResult) (now ttl : Nat) : Except PyExc RedisState :=
  match fault with
  | some e => .error e
  | none => .ok (storeResultCore st result now ttl)

/-- get_result: GET at tick now; an expired or absent key reads as None. -/
def get_result (st : RedisState) (job_id : String) (now : Nat) :
    Option ProcessingResult :=
  match getAssoc st.results ("result:" ++ job_id) with
  | none => none
  | some sr => if now < sr.expiresAt then some sr.value else none

/-- delete_job: DEL of both the job hash and the result key. -/
def delete_job (st : RedisState) (job_id : String) : RedisState :=
  { st with
    jobs := delAssoc st.jobs ("job:" ++ job_id),
    results := delAssoc st.results ("result:" ++ job_id) }

/-! ## parsers.py -/

/-- Python str.lower, character by character. -/
def pyLower (s : String) : String := String.mk (s.data.map Char.toLower)

/-- validate_pdf: existence and is-file checks are file-system I/O,
abstracted to the environment flag fileOk; the suffix check on the
constructed path job_id ++ ".pdf" always passes. -/
def validate_pdf (fileOk : Bool) : Bool := fileOk

/-- get_parser factory: lowercases the requested type and selects the
parser class; an unknown type raises ValueError, and the Gemini and
Mistral constructors raise ValueError when their API key is absent
(googleKey and mistralKey model settings.google_api_key and
settings.mistral_api_key truthiness). -/
def getParser (googleKey mistralKey : Bool) (parser_type : String) :
    Except PyExc ParserType :=
  let p := pyLower parser_type
  if p = "pypdf" then .ok .pypdf
  else if p = "gemini" then
    if googleKey then .ok .gemini
    else .error ⟨"ValueError", "Google API key required for Gemini parser"⟩
  else if p = "mistral" then
    if mistralKey then .ok .mistral
    else .error ⟨"ValueError", "Mistral API key required for Mistral parser"⟩
  else
    .error ⟨"ValueError",
      "Invalid parser type: " ++ p ++ ". Must be one of: pypdf, gemini, mistral"⟩

/-- The enum call ParserType(parser_type) in worker.py: exact value
match, ValueError otherwise (no lowercasing here). -/
def parserTypeOf (s : String) : Except PyExc ParserType :=
  if s = "pypdf" then .ok .pypdf
  else if s = "gemini" then .ok .gemini
  else if s = "mistral" then .ok .mistral
  else .error ⟨"ValueError", "\x27" ++ s ++ "\x27 is not a valid ParserType"⟩

/-! ## worker.py -/

/-- Message of the AttributeError raised by job_metadata.get when
get_job_status returned None. -/
def noneGetMsg : String := "\x27NoneType\x27 object has no attribute \x27get\x27"

/-- job_metadata.get("timestamp", utcnow-iso): raises AttributeError on
None, otherwise reads the field with the default. -/
def pyGetTimestamp (meta : Option JobHash) (nowIso : String) :
    Except PyExc String :=
  match meta with
  | none => .error ⟨"AttributeError", noneGetMsg⟩
  | some h => .ok (h.timestamp.getD nowIso)

/-- Injected faults for the Redis calls made during one process_job run,
in program order.  some e means the call raises e before mutating state. -/
structure StoreFaults where
  updProcessing : Option PyExc
  getMeta : Option PyExc
  storeRes : Option PyExc
  updCompleted : Option PyExc
  updFailed : Option PyExc
  getMetaFailed : Option PyExc
  storeResFailed : Option PyExc
  ack : Option PyExc
deriving DecidableEq, Repr

/-- All Redis calls succeed. -/
def StoreFaults.noFaults : StoreFaults :=
  ⟨none, none, none, none, none, none, none, none⟩

/-- Environment of one process_job run: settings, file-system state, the
external Parser capability outcome, clock readings, and whether the
Gateway concurrently deletes the job between the parse call and the
metadata read (the only store write race the design allows). -/
structure ProcessJobEnv where
  upload_dir : String
  ttl : Nat
  googleKey : Bool
  mistralKey : Bool
  fileOk : Bool
  parse : Except PyExc (List PageDict × Option String)
  midDelete : Bool
  startTime : Nat
  endTime : Nat
  nowIso : String
deriving Repr

/-- The try block of process_job.  An error carries the state reached at
the raise point, since earlier writes persist. -/
def processJobTry (env : ProcessJobEnv) (f : StoreFaults) (jd : ClaimedJob)
    (st : RedisState) : Except (PyExc × RedisState) RedisState :=
  match update_job_status f.updProcessing st jd.job_id .processing none with
  | .error e => .error (e, st)
  | .ok st1 =>
    let pdf_path := env.upload_dir ++ "/" ++ jd.job_id ++ ".pdf"
    if !(validate_pdf env.fileOk) then
      .error (⟨"FileNotFoundError", "PDF file not found: " ++ pdf_path⟩, st1)
    else
      match getParser env.googleKey env.mistralKey jd.parser with
      | .error e => .error (e, st1)
      | .ok _parserObj =>
        match env.parse with
        | .error e => .error (e, st1)
        | .ok (pages, summary) =>
          let processing_time := env.endTime - env.startTime
          let st1b := if env.midDelete then delete_job st1 jd.job_id else st1
          match get_job_status f.getMeta st1b jd.job_id with
          | .error e => .error (e, st1b)
          | .ok meta =>
            match pyGetTimestamp meta env.nowIso with
            | .error e => .error (e, st1b)
            | .ok timestamp =>
              match parserTypeOf jd.parser with
              | .error e => .error (e, st1b)
              | .ok ptype =>
                let result : ProcessingResult :=
                  ⟨jd.job_id, .completed, jd.filename, ptype, pages, summary,
                   none, timestamp, some processing_time⟩
                match store_result f.storeRes st1b result env.endTime env.ttl with
                | .error e => .error (e, st1b)
                | .ok st2 =>
                  match update_job_status f.updCompleted st2 jd.job_id .completed none with
                  | .error e => .error (e, st2)
                  | .ok st3 => .ok st3

/-- The except branch of process_job: mark the job FAILED with the
stringified exception, then best-effort store a FAILED result (inner
try swallows everything).  Returns the new state and the exception that
escapes when the FAILED status write itself raises. -/
def processJobExcept (env : ProcessJobEnv) (f : StoreFaults) (jd : ClaimedJob)
    (e : PyExc) (st : RedisState) : RedisState × Option PyExc :=
  let error_message := e.str
  match update_job_status f.updFailed st jd.job_id .failed (some error_message) with
  | .error e2 => (st, some e2)
  | .ok st1 =>
    let st2 :=
      match get_job_status f.getMetaFailed st1 jd.job_id with
      | .error _ => st1
      | .ok meta =>
        match pyGetTimestamp meta env.nowIso with
        | .error _ => st1
        | .ok timestamp =>
          match parserTypeOf jd.parser with
          | .error _ => st1
          | .ok ptype =>
            let failed_result : ProcessingResult :=
              ⟨jd.job_id, .failed, jd.filename, ptype, [], none,
               some error_message, timestamp, some (env.endTime - env.startTime)⟩
            match store_result f.storeResFailed st1 failed_result env.endTime env.ttl with
            | .error _ => st1
            | .ok stR => stR
    (st2, none)

/-- The finally block: acknowledge, swallowing an ack failure. -/
def processJobFinally (f : StoreFaults) (jd : ClaimedJob) (st : RedisState) :
    RedisState :=
  match acknowledge_job f.ack st jd.message_id with
  | .error _ => st
  | .ok st2 => st2

/-- Outcome of one process_job run: final Redis state, how many times
acknowledgment was attempted, and the exception escaping the call (only
a raise inside the except branch can escape, after the finally ran). -/
structure JobOutcome where
  state : RedisState
  ackAttempts : Nat
  escaped : Option PyExc
deriving Repr

/-- process_job(job_data): try / except Exception / finally. -/
def process_job (env : ProcessJobEnv) (f : StoreFaults) (jd : ClaimedJob)
    (st : RedisState) : JobOutcome :=
  match processJobTry env f jd st with
  | .ok st1 =>
    { state := processJobFinally f jd st1, ackAttempts := 1, escaped := none }
  | .error (e, st1) =>
    let r := processJobExcept env f jd e st1
    { state := processJobFinally f jd r.1, ackAttempts := 1, escaped := r.2 }

/-- One iteration of the run_worker schedule: the shutdown flag value at
the while guard, its value at the per-job check inside the for loop, and
the environment and faults process_job would run with this iteration. -/
structure WorkerIter where
  flagAtGuard : Bool
  flagAtInner : Bool
  env : ProcessJobEnv
  faults : StoreFaults
deriving Repr

/-- Result of a worker run: final state, message ids whose processing
ran, message ids claimed but skipped at the inner shutdown check. -/
structure WorkerResult where
  state : RedisState
  processedIds : List Nat
  skippedIds : List Nat
deriving Repr

/-- The while loop of run_worker, driven by a finite schedule of
iterations (an exhausted schedule behaves as the flag staying raised).
Each iteration: check the guard, XREADGROUP one entry (an exception from
the claim is caught by the outer handler, which backs off and retries),
then for the claimed entry check the flag again and either skip it
(break) or run process_job; an exception escaping process_job is caught
by the outer handler as well. -/
def runWorkerLoop : List WorkerIter → RedisState → WorkerResult
  | [], st => ⟨st, [], []⟩
  | it :: rest, st =>
    if it.flagAtGuard then ⟨st, [], []⟩
    else
      match read_jobs_from_stream st 1 with
      | .error _ => runWorkerLoop rest st
      | .ok (jobs, st1) =>
        match jobs with
        | [] => runWorkerLoop rest st1
        | jd :: _ =>
          if it.flagAtInner then
            let r := runWorkerLoop rest st1
            ⟨r.state, r.processedIds, jd.message_id :: r.skippedIds⟩
          else
            let out := process_job it.env it.faults jd st1
            let r := runWorkerLoop rest out.state
            ⟨r.state, jd.message_id :: r.processedIds, r.skippedIds⟩

/-- Effect of a successful XACK on the group bookkeeping. -/
def ackGroup (g : Option GroupState) (message_id : Nat) : Option GroupState :=
  match g with
  | none => none
  | some gr => some { gr with pending := gr.pending.erase message_id }

/-! ## Helper lemmas -/

theorem getAssoc_setAssoc_self {α : Type} (l : List (String × α)) (k : String)
    (v : α) : getAssoc (setAssoc l k v) k = some v := by
  induction l with
  | nil => simp [setAssoc, getAssoc]
  | cons p rest ih =>
    by_cases h : p.1 = k
    · simp [setAssoc, getAssoc, h]
    · simpa [setAssoc, getAssoc, h] using ih

theorem getAssoc_setAssoc_ne {α : Type} (l : List (String × α)) (k k2 : String)
    (v : α) (hne : k ≠ k2) :
    getAssoc (setAssoc l k v) k2 = getAssoc l k2 := by
  induction l with
  | nil => simp [setAssoc, getAssoc, hne]
  | cons p rest ih =>
    by_cases h : p.1 = k
    · simp [setAssoc, getAssoc, h, hne]
    · by_cases h2 : p.1 = k2 <;> simp [setAssoc, getAssoc, h, h2, hne.symm, ih]

theorem strData_append (a b : String) : (a ++ b).data = a.data ++ b.data := rfl

theorem pyStr_ne_empty (e : PyExc) : e.str ≠ "" := by
  intro h
  have hd : (e.str).data = [] := by rw [h]
  rw [show e.str = e.name ++ (": " ++ e.msg) from by
        simp [PyExc.str, String.append_assoc]] at hd
  rw [strData_append, strData_append] at hd
  simp at hd

theorem errTruthy_pyStr (e : PyExc) : errTruthy (some e.str) = true := by
  simp [errTruthy, pyStr_ne_empty e]

/-- The hash written by update_job_status. -/
def updatedHash (base : JobHash) (status : JobStatus) (error : Option String) :
    JobHash :=
  if errTruthy error then { base with status := some status.value, error := error }
  else { base with status := some status.value }

theorem updateJobStatusCore_jobs (st : RedisState) (id : String)
    (s : JobStatus) (err : Option String) :
    (updateJobStatusCore st id s err).jobs
      = setAssoc st.jobs ("job:" ++ id)
          (updatedHash ((getAssoc st.jobs ("job:" ++ id)).getD JobHash.empty) s err) := by
  by_cases h : errTruthy err = true <;>
    simp [updateJobStatusCore, updatedHash, h]

theorem updatedHash_status (base : JobHash) (s : JobStatus) (err : Option String) :
    (updatedHash base s err).status = some s.value := by
  by_cases h : errTruthy err = true <;> simp [updatedHash, h]

theorem updatedHash_frame (base : JobHash) (s : JobStatus) (err : Option String) :
    (updatedHash base s err).filename = base.filename ∧
    (updatedHash base s err).parser = base.parser ∧
    (updatedHash base s err).timestamp = base.timestamp ∧
    (updatedHash base s err).error = (if errTruthy err then err else base.error) := by
  by_cases h : errTruthy err = true <;> simp [updatedHash, h]

theorem updatedHash_ne_empty (base : JobHash) (s : JobStatus) (err : Option String) :
    updatedHash base s err ≠ JobHash.empty := by
  intro h
  have := congrArg JobHash.status h
  rw [updatedHash_status] at this
  simp [JobHash.empty] at this

/-- Reading the job hash right after update_job_status always succeeds
(the HSET created the hash if needed, and it has a status field). -/
theorem getJobStatusCore_after_update (st : RedisState) (id : String)
    (s : JobStatus) (err : Option String) :
    getJobStatusCore (updateJobStatusCore st id s err) id
      = some (updatedHash ((getAssoc st.jobs ("job:" ++ id)).getD JobHash.empty) s err) := by
  simp [getJobStatusCore, updateJobStatusCore_jobs, getAssoc_setAssoc_self,
    updatedHash_ne_empty]

theorem getAssoc_delAssoc_self {α : Type} (l : List (String × α)) (k : String) :
    getAssoc (delAssoc l k) k = none := by
  induction l with
  | nil => simp [delAssoc, getAssoc]
  | cons p rest ih =>
    by_cases h : p.1 = k <;> simpa [delAssoc, getAssoc, h] using ih

@[simp] theorem updateJobStatusCore_results (st : RedisState) (id : String)
    (s : JobStatus) (err : Option String) :
    (updateJobStatusCore st id s err).results = st.results := rfl

@[simp] theorem updateJobStatusCore_group (st : RedisState) (id : String)
    (s : JobStatus) (err : Option String) :
    (updateJobStatusCore st id s err).group = st.group := rfl

@[simp] theorem updateJobStatusCore_entries (st : RedisState) (id : String)
    (s : JobStatus) (err : Option String) :
    (updateJobStatusCore st id s err).entries = st.entries := rfl

@[simp] theorem updateJobStatusCore_nextId (st : RedisState) (id : String)
    (s : JobStatus) (err : Option String) :
    (updateJobStatusCore st id s err).nextId = st.nextId := rfl

@[simp] theorem storeResultCore_jobs (st : RedisState) (r : ProcessingResult)
    (now ttl : Nat) : (storeResultCore st r now ttl).jobs = st.jobs := rfl

@[simp] theorem storeResultCore_group (st : RedisState) (r : ProcessingResult)
    (now ttl : Nat) : (storeResultCore st r now ttl).group = st.group := rfl

@[simp] theorem storeResultCore_entries (st : RedisState) (r : ProcessingResult)
    (now ttl : Nat) : (storeResultCore st r now ttl).entries = st.entries := rfl

@[simp] theorem storeResultCore_nextId (st : RedisState) (r : ProcessingResult)
    (now ttl : Nat) : (storeResultCore st r now ttl).nextId = st.nextId := rfl

theorem storeResultCore_results (st : RedisState) (r : ProcessingResult)
    (now ttl : Nat) :
    (storeResultCore st r now ttl).results
      = setAssoc st.results ("result:" ++ r.job_id) ⟨r, now + ttl⟩ := rfl

@[simp] theorem delete_job_group (st : RedisState) (id : String) :
    (delete_job st id).group = st.group := rfl

@[simp] theorem delete_job_entries (st : RedisState) (id : String) :
    (delete_job st id).entries = st.entries := rfl

@[simp] theorem delete_job_nextId (st : RedisState) (id : String) :
    (delete_job st id).nextId = st.nextId := rfl

@[simp] theorem ite_delete_job_group (c : Bool) (s : RedisState) (i : String) :
    (if c = true then delete_job s i else s).group = s.group := by
  cases c <;> simp

@[simp] theorem ite_delete_job_entries (c : Bool) (s : RedisState) (i : String) :
    (if c = true then delete_job s i else s).entries = s.entries := by
  cases c <;> simp

@[simp] theorem ite_delete_job_nextId (c : Bool) (s : RedisState) (i : String) :
    (if c = true then delete_job s i else s).nextId = s.nextId := by
  cases c <;> simp

/-- The state carried by the outcome of the try block (the state reached
at the raise point when it raised). -/
def tryState : Except (PyExc × RedisState) RedisState → RedisState
  | .ok s => s
  | .error (_, s) => s

/-- The try block only writes job hashes and results: stream entries,
the id counter and the consumer group are untouched on every path. -/
theorem processJobTry_frame (env : ProcessJobEnv) (f : StoreFaults)
    (jd : ClaimedJob) (st : RedisState) :
    (tryState (processJobTry env f jd st)).entries = st.entries ∧
    (tryState (processJobTry env f jd st)).nextId = st.nextId ∧
    (tryState (processJobTry env f jd st)).group = st.group := by
  obtain ⟨f1, f2, f3, f4, f5, f6, f7, f8⟩ := f
  unfold processJobTry
  simp only [update_job_status, get_job_status, store_result]
  cases f1 with
  | some e => simp [tryState]
  | none =>
    cases hv : env.fileOk with
    | false => simp [validate_pdf, hv, tryState]
    | true =>
      simp only [validate_pdf, hv, Bool.not_true, Bool.false_eq_true, if_false]
      cases hgp : getParser env.googleKey env.mistralKey jd.parser with
      | error e => simp [tryState]
      | ok pobj =>
        cases hp : env.parse with
        | error e => simp [tryState]
        | ok ps =>
          obtain ⟨pages, summary⟩ := ps
          cases f2 with
          | some e => simp [tryState]
          | none =>
            cases hts : pyGetTimestamp
                (getJobStatusCore
                  (if env.midDelete = true then
                    delete_job (updateJobStatusCore st jd.job_id .processing none) jd.job_id
                  else updateJobStatusCore st jd.job_id .processing none)
                  jd.job_id) env.nowIso with
            | error e => simp [hts, tryState]
            | ok ts =>
              simp only [hts]
              cases hpt : parserTypeOf jd.parser with
              | error e => simp [hpt, tryState]
              | ok pt =>
                simp only [hpt]
                cases f3 with
                | some e => simp [tryState]
                | none =>
                  cases f4 with
                  | some e => simp [tryState]
                  | none => simp [tryState]

/-- The except branch likewise only writes job hashes and results. -/
theorem processJobExcept_frame (env : ProcessJobEnv) (f : StoreFaults)
    (jd : ClaimedJob) (e : PyExc) (st : RedisState) :
    (processJobExcept env f jd e st).1.entries = st.entries ∧
    (processJobExcept env f jd e st).1.nextId = st.nextId ∧
    (processJobExcept env f jd e st).1.group = st.group := by
  obtain ⟨f1, f2, f3, f4, f5, f6, f7, f8⟩ := f
  unfold processJobExcept
  simp only [update_job_status, get_job_status, store_result]
  cases f5 with
  | some e2 => simp
  | none =>
    cases f6 with
    | some e2 => simp
    | none =>
      cases hts : pyGetTimestamp
          (getJobStatusCore (updateJobStatusCore st jd.job_id .failed (some e.str)) jd.job_id)
          env.nowIso with
      | error e2 => simp [hts]
      | ok ts =>
        simp only [hts]
        cases hpt : parserTypeOf jd.parser with
        | error e2 => simp [hpt]
        | ok pt =>
          simp only [hpt]
          cases f7 with
          | some e2 => simp
          | none => simp

/-- The finally block only acknowledges: job hashes, results, entries
and the id counter are untouched, and the group is updated exactly when
the ack call does not raise. -/
theorem processJobFinally_frame (f : StoreFaults) (jd : ClaimedJob)
    (st : RedisState) :
    (processJobFinally f jd st).jobs = st.jobs ∧
    (processJobFinally f jd st).results = st.results ∧
    (processJobFinally f jd st).entries = st.entries ∧
    (processJobFinally f jd st).nextId = st.nextId ∧
    (processJobFinally f jd st).group
      = (match f.ack with
         | none => ackGroup st.group jd.message_id
         | some _ => st.group) := by
  cases hA : f.ack with
  | some e => simp [processJobFinally, acknowledge_job, hA]
  | none =>
    cases hg : st.group with
    | none =>
      simp [processJobFinally, acknowledge_job, acknowledgeCore, ackGroup, hA, hg]
    | some g =>
      simp [processJobFinally, acknowledge_job, acknowledgeCore, ackGroup, hA, hg]

/-- process_job never touches the stream entries or the id counter, and
its only effect on the consumer group is the final acknowledgment. -/
theorem process_job_frame (env : ProcessJobEnv) (f : StoreFaults)
    (jd : ClaimedJob) (st : RedisState) :
    (process_job env f jd st).state.entries = st.entries ∧
    (process_job env f jd st).state.nextId = st.nextId ∧
    (process_job env f jd st).state.group
      = (match f.ack with
         | none => ackGroup st.group jd.message_id
         | some _ => st.group) := by
  have hTry := processJobTry_frame env f jd st
  unfold process_job
  cases hpt : processJobTry env f jd st with
  | ok s1 =>
    rw [hpt] at hTry
    simp only [tryState] at hTry
    have hFin := processJobFinally_frame f jd s1
    exact ⟨hFin.2.2.1.trans hTry.1, hFin.2.2.2.1.trans hTry.2.1,
      by rw [hFin.2.2.2.2, hTry.2.2]⟩
  | error p =>
    obtain ⟨e, s1⟩ := p
    rw [hpt] at hTry
    simp only [tryState] at hTry
    have hExc := processJobExcept_frame env f jd e s1
    have hFin := processJobFinally_frame f jd (processJobExcept env f jd e s1).1
    exact ⟨hFin.2.2.1.trans (hExc.1.trans hTry.1),
      hFin.2.2.2.1.trans (hExc.2.1.trans hTry.2.1),
      by rw [hFin.2.2.2.2, hExc.2.2, hTry.2.2]⟩

/-- The outcome of the try and except phases does not depend on the ack
fault: only the finally block reads it. -/
theorem process_job_ack_independent (env : ProcessJobEnv) (f : StoreFaults)
    (jd : ClaimedJob) (st : RedisState) (a : Option PyExc) :
    (process_job env { f with ack := a } jd st).escaped
      = (process_job env f jd st).escaped ∧
    (process_job env { f with ack := a } jd st).state.jobs
      = (process_job env f jd st).state.jobs ∧
    (process_job env { f with ack := a } jd st).state.results
      = (process_job env f jd st).state.results := by
  have hTryEq : processJobTry env { f with ack := a } jd st
      = processJobTry env f jd st := rfl
  unfold process_job
  rw [hTryEq]
  cases hpt : processJobTry env f jd st with
  | ok s1 =>
    have h1 := processJobFinally_frame { f with ack := a } jd s1
    have h2 := processJobFinally_frame f jd s1
    exact ⟨rfl, h1.1.trans h2.1.symm, h1.2.1.trans h2.2.1.symm⟩
  | error p =>
    obtain ⟨e, s1⟩ := p
    have h1 := processJobFinally_frame { f with ack := a } jd
      (processJobExcept env f jd e s1).1
    have h2 := processJobFinally_frame f jd (processJobExcept env f jd e s1).1
    exact ⟨rfl, h1.1.trans h2.1.symm, h1.2.1.trans h2.2.1.symm⟩

/-- Under healthy Redis calls the except branch always records FAILED in
the job hash (whatever the best-effort result write does), preserves the
group, and lets nothing escape. -/
theorem processJobExcept_noFaults (env : ProcessJobEnv) (jd : ClaimedJob)
    (e : PyExc) (st : RedisState) :
    (processJobExcept env StoreFaults.noFaults jd e st).1.jobs
      = (updateJobStatusCore st jd.job_id .failed (some e.str)).jobs ∧
    (processJobExcept env StoreFaults.noFaults jd e st).1.group = st.group ∧
    (processJobExcept env StoreFaults.noFaults jd e st).2 = none := by
  unfold processJobExcept
  simp only [update_job_status, get_job_status, store_result, StoreFaults.noFaults]
  cases hts : pyGetTimestamp
      (getJobStatusCore (updateJobStatusCore st jd.job_id .failed (some e.str)) jd.job_id)
      env.nowIso with
  | error e2 => simp [hts]
  | ok ts =>
    simp only [hts]
    cases hpt : parserTypeOf jd.parser with
    | error e2 => simp [hpt]
    | ok pt => simp [hpt]

theorem getJobStatusCore_delete (st : RedisState) (id : String) :
    getJobStatusCore (delete_job st id) id = none := by
  simp [getJobStatusCore, delete_job, getAssoc_delAssoc_self]

@[simp] theorem processJobFinally_noFaults (jd : ClaimedJob) (st : RedisState) :
    processJobFinally StoreFaults.noFaults jd st
      = acknowledgeCore st jd.message_id := rfl

@[simp] theorem acknowledgeCore_jobs (st : RedisState) (mid : Nat) :
    (acknowledgeCore st mid).jobs = st.jobs := by
  cases hg : st.group <;> simp [acknowledgeCore, hg]

@[simp] theorem acknowledgeCore_results (st : RedisState) (mid : Nat) :
    (acknowledgeCore st mid).results = st.results := by
  cases hg : st.group <;> simp [acknowledgeCore, hg]

theorem acknowledgeCore_group (st : RedisState) (mid : Nat) :
    (acknowledgeCore st mid).group = ackGroup st.group mid := by
  cases hg : st.group <;> simp [acknowledgeCore, ackGroup, hg]

theorem pyStr_contains_name (e : PyExc) : e.name.toList <:+: e.str.toList := by
  refine ⟨[], ": ".toList ++ e.msg.toList, ?_⟩
  simp [PyExc.str, String.toList, strData_append, List.append_assoc]

theorem pyStr_contains_msg (e : PyExc) : e.msg.toList <:+: e.str.toList := by
  refine ⟨e.name.toList ++ ": ".toList, [], ?_⟩
  simp [PyExc.str, String.toList, strData_append, List.append_assoc]

/-! ## Sample states used by closed theorems -/

/-- A store holding one fully populated job hash for j2 whose last
transition was FAILED with error "boom". -/
def failedJ2State : RedisState :=
  { RedisState.empty with
    jobs := [("job:j2", ⟨some "failed", some "a.pdf", some "pypdf", some "t0", some "boom"⟩)] }

/-- A store with an existing consumer group and nothing else. -/
def groupedState : RedisState :=
  { RedisState.empty with group := some ⟨0, []⟩ }

/-! ## Claims C1, C2, C8, C9 -/

/-- Claim C1, counterexample: calling update_job_status on a job_id with
no record is not a no-op NotFound failure — the HSET call succeeds and
creates a fresh hash holding only the status field, so the store is
changed. -/
theorem c1_counterexample :
    update_job_status none RedisState.empty "ghost" JobStatus.completed none
      = .ok (updateJobStatusCore RedisState.empty "ghost" JobStatus.completed none) ∧
    getAssoc (updateJobStatusCore RedisState.empty "ghost" JobStatus.completed none).jobs
      "job:ghost" = some ⟨some "completed", none, none, none, none⟩ ∧
    (updateJobStatusCore RedisState.empty "ghost" JobStatus.completed none).jobs
      ≠ RedisState.empty.jobs := by
  refine ⟨rfl, by decide, by decide⟩

/-- Claim C1, amended: for every job_id with no existing record,
update_job_status does not fail and does not leave the store unchanged;
it creates a new hash containing only the status field (and the error
field when a nonempty error is supplied). -/
theorem c1_update_missing_creates_record (st : RedisState) (id : String)
    (s : JobStatus) (err : Option String)
    (habs : getAssoc st.jobs ("job:" ++ id) = none) :
    update_job_status none st id s err = .ok (updateJobStatusCore st id s err) ∧
    getAssoc (updateJobStatusCore st id s err).jobs ("job:" ++ id)
      = some ⟨some s.value, none, none, none,
              if errTruthy err then err else none⟩ := by
  refine ⟨rfl, ?_⟩
  rw [updateJobStatusCore_jobs, habs]
  by_cases h : errTruthy err = true <;>
    simp [updatedHash, getAssoc_setAssoc_self, h, JobHash.empty]

/-- Witness for c1_update_missing_creates_record. -/
theorem c1_update_missing_creates_record_witness :
    update_job_status none RedisState.empty "j9" JobStatus.processing none
      = .ok (updateJobStatusCore RedisState.empty "j9" JobStatus.processing none) ∧
    getAssoc (updateJobStatusCore RedisState.empty "j9" JobStatus.processing none).jobs
      ("job:" ++ "j9") = some ⟨some "processing", none, none, none, none⟩ :=
  c1_update_missing_creates_record RedisState.empty "j9" .processing none (by decide)

/-- Claim C2, counterexample: a record whose error field holds "boom"
keeps that error after a transition to COMPLETED with no error argument
— the error field is not cleared on non-FAILED transitions. -/
theorem c2_counterexample :
    getAssoc (updateJobStatusCore failedJ2State "j2" JobStatus.completed none).jobs
      "job:j2"
      = some ⟨some "completed", some "a.pdf", some "pypdf", some "t0", some "boom"⟩ := by
  decide

/-- Claim C2, amended: update_job_status overwrites the error field
exactly when a nonempty error argument is supplied; on every other call
(in particular every transition without an error argument, whatever the
status) the previous error value is retained, not cleared. -/
theorem c2_error_retained (st : RedisState) (id : String) (s : JobStatus)
    (err : Option String) :
    ((getAssoc (updateJobStatusCore st id s err).jobs ("job:" ++ id)).getD
        JobHash.empty).error
      = (if errTruthy err then err
         else ((getAssoc st.jobs ("job:" ++ id)).getD JobHash.empty).error) := by
  rw [updateJobStatusCore_jobs]
  simp [getAssoc_setAssoc_self, (updatedHash_frame _ s err).2.2.2]

/-- Claim C8: on an existing record, update_job_status is a partial
update — status is overwritten, error only when a truthy error argument
is supplied, and filename, parser and the creation timestamp keep their
previous values; storing a result or acknowledging an entry never
touches any job hash, so the timestamp is never mutated later. -/
theorem c8_partial_update (st : RedisState) (id : String) (s : JobStatus)
    (err : Option String) (h : JobHash)
    (hpres : getAssoc st.jobs ("job:" ++ id) = some h) :
    (∃ h2, getAssoc (updateJobStatusCore st id s err).jobs ("job:" ++ id) = some h2 ∧
       h2.filename = h.filename ∧ h2.parser = h.parser ∧
       h2.timestamp = h.timestamp ∧ h2.status = some s.value ∧
       h2.error = (if errTruthy err then err else h.error)) ∧
    (∀ r now ttl, (storeResultCore st r now ttl).jobs = st.jobs) ∧
    (∀ mid, (acknowledgeCore st mid).jobs = st.jobs) := by
  refine ⟨⟨updatedHash h s err, ?_, ?_, ?_, ?_, ?_, ?_⟩, ?_, ?_⟩
  · rw [updateJobStatusCore_jobs, hpres]
    simp [getAssoc_setAssoc_self]
  · exact (updatedHash_frame h s err).1
  · exact (updatedHash_frame h s err).2.1
  · exact (updatedHash_frame h s err).2.2.1
  · exact updatedHash_status h s err
  · exact (updatedHash_frame h s err).2.2.2
  · intro r now ttl; simp [storeResultCore]
  · intro mid
    cases hg : st.group <;> simp [acknowledgeCore, hg]

/-- Witness for c8_partial_update. -/
theorem c8_partial_update_witness :
    (∃ h2, getAssoc (updateJobStatusCore failedJ2State "j2" JobStatus.processing none).jobs
        ("job:" ++ "j2") = some h2 ∧
       h2.filename = some "a.pdf" ∧ h2.parser = some "pypdf" ∧
       h2.timestamp = some "t0" ∧ h2.status = some "processing" ∧
       h2.error = some "boom") ∧
    (∀ r now ttl, (storeResultCore failedJ2State r now ttl).jobs = failedJ2State.jobs) ∧
    (∀ mid, (acknowledgeCore failedJ2State mid).jobs = failedJ2State.jobs) :=
  c8_partial_update failedJ2State "j2" .processing none
    ⟨some "failed", some "a.pdf", some "pypdf", some "t0", some "boom"⟩ (by decide)

/-- Claim C9: create_consumer_group is idempotent — it creates the group
reading from the start of the log (cursor 0, empty pending list) when it
is absent, returns without error and without changing anything when the
group already exists (the BUSYGROUP ResponseError is swallowed), and any
other creation failure propagates to the caller. -/
theorem c9_create_consumer_group_idempotent (st : RedisState) (e : PyExc) :
    (st.group = none →
      create_consumer_group none st = .ok { st with group := some ⟨0, []⟩ }) ∧
    (∀ g, st.group = some g → create_consumer_group none st = .ok st) ∧
    ((e.name == "ResponseError" && strContainsB "BUSYGROUP" e.msg) = false →
      create_consumer_group (some e) st = .error e) := by
  refine ⟨?_, ?_, ?_⟩
  · intro h
    simp [create_consumer_group, xgroup_create, h]
  · intro g h
    have hc : strContainsB "BUSYGROUP" busyGroupMsg = true := by decide
    simp [create_consumer_group, xgroup_create, h, hc]
  · intro h
    simp [create_consumer_group, xgroup_create, h]

/-- Witness for c9_create_consumer_group_idempotent. -/
theorem c9_create_consumer_group_idempotent_witness :
    create_consumer_group none RedisState.empty
      = .ok { RedisState.empty with group := some ⟨0, []⟩ } ∧
    create_consumer_group none groupedState = .ok groupedState ∧
    create_consumer_group (some ⟨"ConnectionError", "connection refused"⟩) groupedState
      = .error ⟨"ConnectionError", "connection refused"⟩ :=
  ⟨(c9_create_consumer_group_idempotent RedisState.empty
      ⟨"ConnectionError", "connection refused"⟩).1 rfl,
   (c9_create_consumer_group_idempotent groupedState
      ⟨"ConnectionError", "connection refused"⟩).2.1 ⟨0, []⟩ rfl,
   (c9_create_consumer_group_idempotent groupedState
      ⟨"ConnectionError", "connection refused"⟩).2.2 (by decide)⟩

/-! ## Sample worker inputs used by witnesses -/

/-- A healthy environment for one job attempt: file present, API keys
configured, the parser returning one page and a summary (the J1 scenario
of the spec). -/
def sampleEnv : ProcessJobEnv :=
  { upload_dir := "./uploads", ttl := 3600, googleKey := true, mistralKey := true,
    fileOk := true, parse := .ok ([⟨"1", "hello"⟩], some "a greeting"),
    midDelete := false, startTime := 10, endTime := 12,
    nowIso := "2024-01-15T10:30:00" }

/-- The claimed entry for job j1 with the pypdf parser. -/
def jdPypdf : ClaimedJob := ⟨1, "j1", "a.pdf", "pypdf"⟩

/-- Store state after the gateway enqueued j1 and the worker claimed it:
entry 1 delivered (cursor 1, pending [1]) and the job hash PENDING. -/
def readyState : RedisState :=
  { entries := [⟨1, "j1", "a.pdf", "pypdf"⟩], nextId := 2, group := some ⟨1, [1]⟩,
    jobs := [("job:j1", ⟨some "pending", some "a.pdf", some "pypdf", some "t0", some ""⟩)],
    results := [] }

/-! ## Claims C5, C6, C7, C10 -/

/-- Claim C7: acknowledgment is attempted exactly once on every
execution path of process_job; when the ack call works the entry is
removed from the pending list whatever else happened, and a failing ack
is swallowed — it changes neither the escaping exception nor the job
hashes nor the results. -/
theorem c7_ack_unconditional (env : ProcessJobEnv) (f : StoreFaults)
    (jd : ClaimedJob) (st : RedisState) :
    (process_job env f jd st).ackAttempts = 1 ∧
    (f.ack = none →
      (process_job env f jd st).state.group = ackGroup st.group jd.message_id) ∧
    (∀ a, (process_job env { f with ack := a } jd st).escaped
            = (process_job env f jd st).escaped ∧
          (process_job env { f with ack := a } jd st).state.jobs
            = (process_job env f jd st).state.jobs ∧
          (process_job env { f with ack := a } jd st).state.results
            = (process_job env f jd st).state.results) := by
  refine ⟨?_, ?_, fun a => process_job_ack_independent env f jd st a⟩
  · unfold process_job
    cases processJobTry env f jd st with
    | ok s1 => rfl
    | error p => rfl
  · intro hA
    have h := (process_job_frame env f jd st).2.2
    rw [hA] at h
    exact h

/-- Witness for c7_ack_unconditional. -/
theorem c7_ack_unconditional_witness :
    (process_job sampleEnv StoreFaults.noFaults jdPypdf readyState).ackAttempts = 1 ∧
    (process_job sampleEnv StoreFaults.noFaults jdPypdf readyState).state.group
      = ackGroup readyState.group jdPypdf.message_id ∧
    (process_job sampleEnv
        { StoreFaults.noFaults with ack := some ⟨"RedisError", "connection lost"⟩ }
        jdPypdf readyState).escaped
      = (process_job sampleEnv StoreFaults.noFaults jdPypdf readyState).escaped :=
  ⟨(c7_ack_unconditional sampleEnv StoreFaults.noFaults jdPypdf readyState).1,
   (c7_ack_unconditional sampleEnv StoreFaults.noFaults jdPypdf readyState).2.1 rfl,
   ((c7_ack_unconditional sampleEnv StoreFaults.noFaults jdPypdf readyState).2.2
      (some ⟨"RedisError", "connection lost"⟩)).1⟩

/-- Claim C5: when the parser raises, process_job marks the job FAILED
with the stringified exception (category name, colon, message — so the
error string contains both), acknowledges the entry, and lets nothing
escape (healthy Redis assumed). -/
theorem c5_parse_error_failed_and_acked (env : ProcessJobEnv) (jd : ClaimedJob)
    (st : RedisState) (e : PyExc) (p : ParserType)
    (hfile : env.fileOk = true)
    (hgp : getParser env.googleKey env.mistralKey jd.parser = .ok p)
    (hparse : env.parse = .error e) :
    (∃ h2, getAssoc (process_job env StoreFaults.noFaults jd st).state.jobs
        ("job:" ++ jd.job_id) = some h2 ∧
      h2.status = some "failed" ∧
      h2.error = some e.str ∧
      e.name.toList <:+: e.str.toList ∧
      e.msg.toList <:+: e.str.toList) ∧
    (process_job env StoreFaults.noFaults jd st).state.group
      = ackGroup st.group jd.message_id ∧
    (process_job env StoreFaults.noFaults jd st).escaped = none := by
  have htry : processJobTry env StoreFaults.noFaults jd st
      = .error (e, updateJobStatusCore st jd.job_id .processing none) := by
    simp [processJobTry, update_job_status, StoreFaults.noFaults, validate_pdf,
      hfile, hgp, hparse]
  have hpj : process_job env StoreFaults.noFaults jd st
      = { state := processJobFinally StoreFaults.noFaults jd
            (processJobExcept env StoreFaults.noFaults jd e
              (updateJobStatusCore st jd.job_id .processing none)).1,
          ackAttempts := 1,
          escaped := (processJobExcept env StoreFaults.noFaults jd e
            (updateJobStatusCore st jd.job_id .processing none)).2 } := by
    unfold process_job
    rw [htry]
  have hexc := processJobExcept_noFaults env jd e
    (updateJobStatusCore st jd.job_id .processing none)
  have hfin := processJobFinally_frame StoreFaults.noFaults jd
    (processJobExcept env StoreFaults.noFaults jd e
      (updateJobStatusCore st jd.job_id .processing none)).1
  rw [hpj]
  refine ⟨⟨updatedHash
      ((getAssoc (updateJobStatusCore st jd.job_id .processing none).jobs
        ("job:" ++ jd.job_id)).getD JobHash.empty) .failed (some e.str), ?_, ?_, ?_, ?_, ?_⟩,
    ?_, ?_⟩
  · rw [hfin.1, hexc.1, updateJobStatusCore_jobs]
    exact getAssoc_setAssoc_self _ _ _
  · exact updatedHash_status _ _ _
  · rw [(updatedHash_frame _ _ _).2.2.2]
    simp [errTruthy_pyStr]
  · exact pyStr_contains_name e
  · exact pyStr_contains_msg e
  · rw [hfin.2.2.2.2]
    show ackGroup (processJobExcept env StoreFaults.noFaults jd e
        (updateJobStatusCore st jd.job_id .processing none)).1.group jd.message_id
      = ackGroup st.group jd.message_id
    rw [hexc.2.1, updateJobStatusCore_group]
  · exact hexc.2.2

/-- Witness for c5_parse_error_failed_and_acked: the J2 scenario, a
ParseError with message "bad format". -/
theorem c5_parse_error_failed_and_acked_witness :
    (∃ h2, getAssoc (process_job { sampleEnv with parse := .error ⟨"ParseError", "bad format"⟩ }
        StoreFaults.noFaults jdPypdf readyState).state.jobs
        ("job:" ++ jdPypdf.job_id) = some h2 ∧
      h2.status = some "failed" ∧
      h2.error = some (PyExc.str ⟨"ParseError", "bad format"⟩) ∧
      (PyExc.name ⟨"ParseError", "bad format"⟩).toList
        <:+: (PyExc.str ⟨"ParseError", "bad format"⟩).toList ∧
      (PyExc.msg ⟨"ParseError", "bad format"⟩).toList
        <:+: (PyExc.str ⟨"ParseError", "bad format"⟩).toList) ∧
    (process_job { sampleEnv with parse := .error ⟨"ParseError", "bad format"⟩ }
        StoreFaults.noFaults jdPypdf readyState).state.group
      = ackGroup readyState.group jdPypdf.message_id ∧
    (process_job { sampleEnv with parse := .error ⟨"ParseError", "bad format"⟩ }
        StoreFaults.noFaults jdPypdf readyState).escaped = none :=
  c5_parse_error_failed_and_acked
    { sampleEnv with parse := .error ⟨"ParseError", "bad format"⟩ }
    jdPypdf readyState ⟨"ParseError", "bad format"⟩ ParserType.pypdf rfl rfl rfl

/-- Claim C6: when the parser succeeds, process_job marks the job
COMPLETED, stores a result carrying exactly the returned pages and
summary with the configured TTL, acknowledges the entry, and lets
nothing escape (healthy Redis, no concurrent delete). -/
theorem c6_parse_success_completed (env : ProcessJobEnv) (jd : ClaimedJob)
    (st : RedisState) (pages : List PageDict) (summary : Option String)
    (p pt : ParserType)
    (hfile : env.fileOk = true)
    (hgp : getParser env.googleKey env.mistralKey jd.parser = .ok p)
    (hpt : parserTypeOf jd.parser = .ok pt)
    (hparse : env.parse = .ok (pages, summary))
    (hmd : env.midDelete = false) :
    (∃ h2, getAssoc (process_job env StoreFaults.noFaults jd st).state.jobs
        ("job:" ++ jd.job_id) = some h2 ∧ h2.status = some "completed") ∧
    (∃ r, getAssoc (process_job env StoreFaults.noFaults jd st).state.results
        ("result:" ++ jd.job_id) = some ⟨r, env.endTime + env.ttl⟩ ∧
      r.pages = pages ∧ r.summary = summary ∧ r.status = .completed) ∧
    (process_job env StoreFaults.noFaults jd st).state.group
      = ackGroup st.group jd.message_id ∧
    (process_job env StoreFaults.noFaults jd st).escaped = none := by
  have htry : processJobTry env StoreFaults.noFaults jd st
      = .ok (updateJobStatusCore
          (storeResultCore (updateJobStatusCore st jd.job_id .processing none)
            ⟨jd.job_id, .completed, jd.filename, pt, pages, summary, none,
             (updatedHash ((getAssoc st.jobs ("job:" ++ jd.job_id)).getD JobHash.empty)
               .processing none).timestamp.getD env.nowIso,
             some (env.endTime - env.startTime)⟩
            env.endTime env.ttl)
          jd.job_id .completed none) := by
    simp [processJobTry, update_job_status, get_job_status, store_result,
      StoreFaults.noFaults, validate_pdf, hfile, hgp, hparse, hmd, hpt,
      getJobStatusCore_after_update, pyGetTimestamp]
  simp only [process_job, htry]
  refine ⟨?_, ?_, ?_, by trivial⟩
  · simp [acknowledgeCore_group, updateJobStatusCore_jobs, getAssoc_setAssoc_self,
      updatedHash_status, JobStatus.value]
  · simp [storeResultCore_results, getAssoc_setAssoc_self]
  · simp [acknowledgeCore_group]

/-- Witness for c6_parse_success_completed: the J1 scenario, one page
and the summary "a greeting". -/
theorem c6_parse_success_completed_witness :
    (∃ h2, getAssoc (process_job sampleEnv StoreFaults.noFaults jdPypdf readyState).state.jobs
        ("job:" ++ jdPypdf.job_id) = some h2 ∧ h2.status = some "completed") ∧
    (∃ r, getAssoc (process_job sampleEnv StoreFaults.noFaults jdPypdf readyState).state.results
        ("result:" ++ jdPypdf.job_id)
        = some ⟨r, sampleEnv.endTime + sampleEnv.ttl⟩ ∧
      r.pages = [⟨"1", "hello"⟩] ∧ r.summary = some "a greeting" ∧
      r.status = .completed) ∧
    (process_job sampleEnv StoreFaults.noFaults jdPypdf readyState).state.group
      = ackGroup readyState.group jdPypdf.message_id ∧
    (process_job sampleEnv StoreFaults.noFaults jdPypdf readyState).escaped = none :=
  c6_parse_success_completed sampleEnv jdPypdf readyState
    [⟨"1", "hello"⟩] (some "a greeting") ParserType.pypdf ParserType.pypdf
    rfl rfl rfl rfl rfl

/-- Claim C10: when the job hash disappears between the successful parse
and the metadata read, the metadata read returns None, the timestamp
access raises AttributeError, and process_job records the job FAILED
with that error and still acknowledges the entry. -/
theorem c10_deleted_mid_parse_fails (env : ProcessJobEnv) (jd : ClaimedJob)
    (st : RedisState) (pages : List PageDict) (summary : Option String)
    (p : ParserType)
    (hfile : env.fileOk = true)
    (hgp : getParser env.googleKey env.mistralKey jd.parser = .ok p)
    (hparse : env.parse = .ok (pages, summary))
    (hmd : env.midDelete = true) :
    (∃ h2, getAssoc (process_job env StoreFaults.noFaults jd st).state.jobs
        ("job:" ++ jd.job_id) = some h2 ∧
      h2.status = some "failed" ∧
      h2.error = some ("AttributeError: " ++ noneGetMsg)) ∧
    (process_job env StoreFaults.noFaults jd st).state.group
      = ackGroup st.group jd.message_id ∧
    (process_job env StoreFaults.noFaults jd st).escaped = none := by
  have htry : processJobTry env StoreFaults.noFaults jd st
      = .error (⟨"AttributeError", noneGetMsg⟩,
          delete_job (updateJobStatusCore st jd.job_id .processing none) jd.job_id) := by
    simp [processJobTry, update_job_status, get_job_status, StoreFaults.noFaults,
      validate_pdf, hfile, hgp, hparse, hmd, getJobStatusCore_delete, pyGetTimestamp]
  have hexc := processJobExcept_noFaults env jd ⟨"AttributeError", noneGetMsg⟩
    (delete_job (updateJobStatusCore st jd.job_id .processing none) jd.job_id)
  have hstr : PyExc.str ⟨"AttributeError", noneGetMsg⟩
      = "AttributeError: " ++ noneGetMsg := by decide
  simp only [process_job, htry]
  refine ⟨⟨updatedHash
      ((getAssoc (delete_job (updateJobStatusCore st jd.job_id .processing none)
          jd.job_id).jobs ("job:" ++ jd.job_id)).getD JobHash.empty)
      .failed (some (PyExc.str ⟨"AttributeError", noneGetMsg⟩)), ?_, ?_, ?_⟩, ?_, ?_⟩
  · rw [processJobFinally_noFaults, acknowledgeCore_jobs, hexc.1,
      updateJobStatusCore_jobs]
    exact getAssoc_setAssoc_self _ _ _
  · exact updatedHash_status _ _ _
  · rw [(updatedHash_frame _ _ _).2.2.2]
    have htr := errTruthy_pyStr (⟨"AttributeError", noneGetMsg⟩ : PyExc)
    rw [htr]
    simp [hstr]
  · rw [processJobFinally_noFaults, acknowledgeCore_group, hexc.2.1]
    simp
  · exact hexc.2.2

/-- Witness for c10_deleted_mid_parse_fails. -/
theorem c10_deleted_mid_parse_fails_witness :
    (∃ h2, getAssoc (process_job { sampleEnv with midDelete := true }
        StoreFaults.noFaults jdPypdf readyState).state.jobs
        ("job:" ++ jdPypdf.job_id) = some h2 ∧
      h2.status = some "failed" ∧
      h2.error = some ("AttributeError: " ++ noneGetMsg)) ∧
    (process_job { sampleEnv with midDelete := true }
        StoreFaults.noFaults jdPypdf readyState).state.group
      = ackGroup readyState.group jdPypdf.message_id ∧
    (process_job { sampleEnv with midDelete := true }
        StoreFaults.noFaults jdPypdf readyState).escaped = none :=
  c10_deleted_mid_parse_fails { sampleEnv with midDelete := true }
    jdPypdf readyState [⟨"1", "hello"⟩] (some "a greeting") ParserType.pypdf
    rfl rfl rfl rfl

/-! ## Claim C4 -/

theorem get_result_of_lookup (st : RedisState) (jid : String)
    (r : ProcessingResult) (T : Nat)
    (h : getAssoc st.results ("result:" ++ jid) = some ⟨r, T⟩) :
    ∀ t, get_result st jid t = if t < T then some r else none := by
  intro t
  simp [get_result, h]

/-- Whenever the except branch runs under healthy Redis and the parser
field is a valid ParserType value, a FAILED result is stored with the
configured TTL and the job hash reads FAILED. -/
theorem failureStateSpec (env : ProcessJobEnv) (jd : ClaimedJob) (e : PyExc)
    (s : RedisState) (pt : ParserType)
    (hpt : parserTypeOf jd.parser = .ok pt) :
    ∃ r : ProcessingResult,
      getAssoc (processJobFinally StoreFaults.noFaults jd
          (processJobExcept env StoreFaults.noFaults jd e s).1).results
        ("result:" ++ jd.job_id) = some ⟨r, env.endTime + env.ttl⟩ ∧
      r.status = .failed ∧
      (∃ h2, getAssoc (processJobFinally StoreFaults.noFaults jd
          (processJobExcept env StoreFaults.noFaults jd e s).1).jobs
        ("job:" ++ jd.job_id) = some h2 ∧ h2.status = some JobStatus.failed.value) := by
  have hexcJ := processJobExcept_noFaults env jd e s
  have hres : ∃ ts, (processJobExcept env StoreFaults.noFaults jd e s).1.results
      = setAssoc s.results ("result:" ++ jd.job_id)
          ⟨⟨jd.job_id, .failed, jd.filename, pt, [], none, some e.str, ts,
            some (env.endTime - env.startTime)⟩, env.endTime + env.ttl⟩ := by
    unfold processJobExcept
    simp only [update_job_status, get_job_status, store_result, StoreFaults.noFaults,
      getJobStatusCore_after_update, pyGetTimestamp, hpt]
    exact ⟨_, rfl⟩
  obtain ⟨ts, hres⟩ := hres
  refine ⟨⟨jd.job_id, .failed, jd.filename, pt, [], none, some e.str, ts,
      some (env.endTime - env.startTime)⟩, ?_, rfl, ?_⟩
  · rw [processJobFinally_noFaults, acknowledgeCore_results, hres]
    exact getAssoc_setAssoc_self _ _ _
  · refine ⟨updatedHash ((getAssoc s.jobs ("job:" ++ jd.job_id)).getD JobHash.empty)
        .failed (some e.str), ?_, updatedHash_status _ _ _⟩
    rw [processJobFinally_noFaults, acknowledgeCore_jobs, hexcJ.1,
      updateJobStatusCore_jobs]
    exact getAssoc_setAssoc_self _ _ _

/-- Claim C4, counterexample: an entry whose parser field is not a valid
ParserType value ("docx") reaches the terminal status FAILED, yet no
Result is stored — the FAILED branch result write is skipped because
ParserType(parser) raises again inside it. -/
theorem c4_counterexample :
    (getAssoc (process_job sampleEnv StoreFaults.noFaults ⟨1, "j1", "a.pdf", "docx"⟩
        readyState).state.jobs "job:j1").map JobHash.status = some (some "failed") ∧
    getAssoc (process_job sampleEnv StoreFaults.noFaults ⟨1, "j1", "a.pdf", "docx"⟩
        readyState).state.results "result:j1" = none := by
  decide

/-- Claim C4, amended: for every claimed entry whose parser field is a
valid ParserType value, processing under healthy Redis always ends in a
terminal status with a Result stored under the job id, retrievable
exactly until its expiry tick, whose status equals the job hash status;
for an invalid parser value (or when a store write fails) the FAILED
status can stand without a stored Result, the failure-branch write being
best-effort. -/
theorem c4_terminal_result_stored (env : ProcessJobEnv) (jd : ClaimedJob)
    (st : RedisState) (pt : ParserType)
    (hpt : parserTypeOf jd.parser = .ok pt) :
    ∃ r : ProcessingResult,
      getAssoc (process_job env StoreFaults.noFaults jd st).state.results
        ("result:" ++ jd.job_id) = some ⟨r, env.endTime + env.ttl⟩ ∧
      (r.status = .completed ∨ r.status = .failed) ∧
      (∃ h2, getAssoc (process_job env StoreFaults.noFaults jd st).state.jobs
          ("job:" ++ jd.job_id) = some h2 ∧ h2.status = some r.status.value) ∧
      (∀ t, get_result (process_job env StoreFaults.noFaults jd st).state jd.job_id t
        = if t < env.endTime + env.ttl then some r else none) := by
  cases hfk : env.fileOk with
  | false =>
    have htry : processJobTry env StoreFaults.noFaults jd st
        = .error (⟨"FileNotFoundError",
            "PDF file not found: " ++ (env.upload_dir ++ "/" ++ jd.job_id ++ ".pdf")⟩,
          updateJobStatusCore st jd.job_id .processing none) := by
      simp [processJobTry, update_job_status, StoreFaults.noFaults, validate_pdf, hfk]
    simp only [process_job, htry]
    obtain ⟨r, hres, hstat, h2, hh2, hsv⟩ := failureStateSpec env jd _ _ pt hpt
    exact ⟨r, hres, Or.inr hstat, ⟨h2, hh2, by rw [hstat]; exact hsv⟩,
      get_result_of_lookup _ _ _ _ hres⟩
  | true =>
    cases hgp : getParser env.googleKey env.mistralKey jd.parser with
    | error e =>
      have htry : processJobTry env StoreFaults.noFaults jd st
          = .error (e, updateJobStatusCore st jd.job_id .processing none) := by
        simp [processJobTry, update_job_status, StoreFaults.noFaults, validate_pdf,
          hfk, hgp]
      simp only [process_job, htry]
      obtain ⟨r, hres, hstat, h2, hh2, hsv⟩ := failureStateSpec env jd _ _ pt hpt
      exact ⟨r, hres, Or.inr hstat, ⟨h2, hh2, by rw [hstat]; exact hsv⟩,
        get_result_of_lookup _ _ _ _ hres⟩
    | ok p =>
      cases hp : env.parse with
      | error e =>
        have htry : processJobTry env StoreFaults.noFaults jd st
            = .error (e, updateJobStatusCore st jd.job_id .processing none) := by
          simp [processJobTry, update_job_status, StoreFaults.noFaults, validate_pdf,
            hfk, hgp, hp]
        simp only [process_job, htry]
        obtain ⟨r, hres, hstat, h2, hh2, hsv⟩ := failureStateSpec env jd _ _ pt hpt
        exact ⟨r, hres, Or.inr hstat, ⟨h2, hh2, by rw [hstat]; exact hsv⟩,
          get_result_of_lookup _ _ _ _ hres⟩
      | ok pr =>
        obtain ⟨pages, summary⟩ := pr
        cases hmd : env.midDelete with
        | true =>
          have htry : processJobTry env StoreFaults.noFaults jd st
              = .error (⟨"AttributeError", noneGetMsg⟩,
                  delete_job (updateJobStatusCore st jd.job_id .processing none)
                    jd.job_id) := by
            simp [processJobTry, update_job_status, get_job_status,
              StoreFaults.noFaults, validate_pdf, hfk, hgp, hp, hmd,
              getJobStatusCore_delete, pyGetTimestamp]
          simp only [process_job, htry]
          obtain ⟨r, hres, hstat, h2, hh2, hsv⟩ := failureStateSpec env jd _ _ pt hpt
          exact ⟨r, hres, Or.inr hstat, ⟨h2, hh2, by rw [hstat]; exact hsv⟩,
            get_result_of_lookup _ _ _ _ hres⟩
        | false =>
          have htry : processJobTry env StoreFaults.noFaults jd st
              = .ok (updateJobStatusCore
                  (storeResultCore (updateJobStatusCore st jd.job_id .processing none)
                    ⟨jd.job_id, .completed, jd.filename, pt, pages, summary, none,
                     (updatedHash ((getAssoc st.jobs ("job:" ++ jd.job_id)).getD
                       JobHash.empty) .processing none).timestamp.getD env.nowIso,
                     some (env.endTime - env.startTime)⟩
                    env.endTime env.ttl)
                  jd.job_id .completed none) := by
            simp [processJobTry, update_job_status, get_job_status, store_result,
              StoreFaults.noFaults, validate_pdf, hfk, hgp, hp, hmd, hpt,
              getJobStatusCore_after_update, pyGetTimestamp]
          simp only [process_job, htry, processJobFinally_noFaults]
          have hres : getAssoc (acknowledgeCore (updateJobStatusCore
              (storeResultCore (updateJobStatusCore st jd.job_id .processing none)
                ⟨jd.job_id, .completed, jd.filename, pt, pages, summary, none,
                 (updatedHash ((getAssoc st.jobs ("job:" ++ jd.job_id)).getD
                   JobHash.empty) .processing none).timestamp.getD env.nowIso,
                 some (env.endTime - env.startTime)⟩
                env.endTime env.ttl)
              jd.job_id .completed none) jd.message_id).results
              ("result:" ++ jd.job_id)
              = some ⟨⟨jd.job_id, .completed, jd.filename, pt, pages, summary, none,
                  (updatedHash ((getAssoc st.jobs ("job:" ++ jd.job_id)).getD
                    JobHash.empty) .processing none).timestamp.getD env.nowIso,
                  some (env.endTime - env.startTime)⟩, env.endTime + env.ttl⟩ := by
            rw [acknowledgeCore_results, updateJobStatusCore_results,
              storeResultCore_results]
            exact getAssoc_setAssoc_self _ _ _
          refine ⟨_, hres, Or.inl rfl, ?_, get_result_of_lookup _ _ _ _ hres⟩
          refine ⟨updatedHash ((getAssoc (storeResultCore
              (updateJobStatusCore st jd.job_id .processing none)
              ⟨jd.job_id, .completed, jd.filename, pt, pages, summary, none,
               (updatedHash ((getAssoc st.jobs ("job:" ++ jd.job_id)).getD
                 JobHash.empty) .processing none).timestamp.getD env.nowIso,
               some (env.endTime - env.startTime)⟩
              env.endTime env.ttl).jobs ("job:" ++ jd.job_id)).getD JobHash.empty)
              .completed none, ?_, updatedHash_status _ _ _⟩
          rw [acknowledgeCore_jobs, updateJobStatusCore_jobs]
          exact getAssoc_setAssoc_self _ _ _

/-- Witness for c4_terminal_result_stored. -/
theorem c4_terminal_result_stored_witness :
    ∃ r : ProcessingResult,
      getAssoc (process_job sampleEnv StoreFaults.noFaults jdPypdf readyState).state.results
        ("result:" ++ jdPypdf.job_id)
        = some ⟨r, sampleEnv.endTime + sampleEnv.ttl⟩ ∧
      (r.status = .completed ∨ r.status = .failed) ∧
      (∃ h2, getAssoc (process_job sampleEnv StoreFaults.noFaults jdPypdf readyState).state.jobs
          ("job:" ++ jdPypdf.job_id) = some h2 ∧ h2.status = some r.status.value) ∧
      (∀ t, get_result (process_job sampleEnv StoreFaults.noFaults jdPypdf readyState).state
          jdPypdf.job_id t
        = if t < sampleEnv.endTime + sampleEnv.ttl then some r else none) :=
  c4_terminal_result_stored sampleEnv jdPypdf readyState ParserType.pypdf rfl

/-! ## Claim C3 -/

/-- Store state before the worker claims anything: entry 1 enqueued,
group created, job hash PENDING, nothing pending. -/
def queuedState : RedisState :=
  { entries := [⟨1, "j1", "a.pdf", "pypdf"⟩], nextId := 2, group := some ⟨0, []⟩,
    jobs := [("job:j1", ⟨some "pending", some "a.pdf", some "pypdf", some "t0", some ""⟩)],
    results := [] }

/-- Claim C3, counterexample: the shutdown flag is raised while the
claim call blocks (guard saw false, the per-job check sees true) — the
worker exits leaving newly claimed entry 1 in the pending list, never
processed and never acknowledged, on a clean shutdown. -/
theorem c3_counterexample :
    (runWorkerLoop [⟨false, true, sampleEnv, StoreFaults.noFaults⟩] queuedState).state.group
      = some ⟨1, [1]⟩ ∧
    (runWorkerLoop [⟨false, true, sampleEnv, StoreFaults.noFaults⟩] queuedState).processedIds
      = [] ∧
    (runWorkerLoop [⟨false, true, sampleEnv, StoreFaults.noFaults⟩] queuedState).skippedIds
      = [1] := by
  decide

/-- Claim C3, amended: on a shutdown the worker finishes and
acknowledges every entry whose processing it started — at exit the
pending list is exactly the initial pending list plus the entries that
were claimed but skipped because the flag was observed between the claim
and the start of processing; only those can be left
claimed-but-unprocessed. -/
theorem c3_shutdown_acks_started_entries (sched : List WorkerIter)
    (st : RedisState) (g : GroupState)
    (hg : st.group = some g)
    (hinv : ∀ id ∈ g.pending, id ≤ g.cursor)
    (hack : ∀ it ∈ sched, it.faults.ack = none) :
    ∃ g2, (runWorkerLoop sched st).state.group = some g2 ∧
      g2.pending = g.pending ++ (runWorkerLoop sched st).skippedIds := by
  induction sched generalizing st g with
  | nil => exact ⟨g, by simp [runWorkerLoop, hg], by simp [runWorkerLoop]⟩
  | cons it rest ih =>
    have hackRest : ∀ it2 ∈ rest, it2.faults.ack = none :=
      fun it2 h2 => hack it2 (List.mem_cons_of_mem _ h2)
    by_cases hfg : it.flagAtGuard = true
    · refine ⟨g, ?_, ?_⟩ <;> simp [runWorkerLoop, hfg, hg]
    · have hfg' : it.flagAtGuard = false := by simpa using hfg
      cases hflt : st.entries.filter (fun e => g.cursor < e.id) with
      | nil =>
        have hread : read_jobs_from_stream st 1 = .ok ([], st) := by
          simp [read_jobs_from_stream, xreadgroup, hg, hflt]
        have hloop : runWorkerLoop (it :: rest) st = runWorkerLoop rest st := by
          simp [runWorkerLoop, hfg', hread]
        rw [hloop]
        exact ih st g hg hinv hackRest
      | cons d tl =>
        have hcur : g.cursor < d.id := by
          have hmem : d ∈ st.entries.filter (fun e => g.cursor < e.id) := by
            rw [hflt]; exact List.mem_cons_self _ _
          simpa using List.of_mem_filter hmem
        have hread : read_jobs_from_stream st 1
            = .ok ([⟨d.id, d.job_id, d.filename, d.parser⟩],
                { st with group := some ⟨max g.cursor d.id, g.pending ++ [d.id]⟩ }) := by
          simp [read_jobs_from_stream, xreadgroup, hg, hflt]
        have hmax : max g.cursor d.id = d.id := Nat.max_eq_right hcur.le
        rw [hmax] at hread
        have hinv1 : ∀ id ∈ g.pending ++ [d.id], id ≤ d.id := by
          intro x hx
          rcases List.mem_append.mp hx with h | h
          · exact (hinv x h).trans hcur.le
          · simp at h; omega
        by_cases hfi : it.flagAtInner = true
        · have hloop : runWorkerLoop (it :: rest) st
              = { state := (runWorkerLoop rest
                    { st with group := some ⟨d.id, g.pending ++ [d.id]⟩ }).state,
                  processedIds := (runWorkerLoop rest
                    { st with group := some ⟨d.id, g.pending ++ [d.id]⟩ }).processedIds,
                  skippedIds := d.id :: (runWorkerLoop rest
                    { st with group := some ⟨d.id, g.pending ++ [d.id]⟩ }).skippedIds } := by
            simp [runWorkerLoop, hfg', hread, hfi]
          rw [hloop]
          obtain ⟨g2, hg2, hp2⟩ := ih { st with group := some ⟨d.id, g.pending ++ [d.id]⟩ }
            ⟨d.id, g.pending ++ [d.id]⟩ rfl hinv1 hackRest
          exact ⟨g2, hg2, by rw [hp2]; simp⟩
        · have hfi' : it.flagAtInner = false := by simpa using hfi
          have hackhd : it.faults.ack = none := hack it (List.mem_cons_self _ _)
          have hnotmem : d.id ∉ g.pending := by
            intro hmem
            exact absurd (hinv _ hmem) (not_le.mpr hcur)
          have hout : (process_job it.env it.faults ⟨d.id, d.job_id, d.filename, d.parser⟩
              { st with group := some ⟨d.id, g.pending ++ [d.id]⟩ }).state.group
              = some ⟨d.id, g.pending⟩ := by
            have hfr := (process_job_frame it.env it.faults
              ⟨d.id, d.job_id, d.filename, d.parser⟩
              { st with group := some ⟨d.id, g.pending ++ [d.id]⟩ }).2.2
            rw [hackhd] at hfr
            rw [hfr]
            show ackGroup (some ⟨d.id, g.pending ++ [d.id]⟩) d.id = _
            simp only [ackGroup]
            rw [List.erase_append_right _ hnotmem, List.erase_cons_head]
            simp
          have hloop : runWorkerLoop (it :: rest) st
              = { state := (runWorkerLoop rest
                    (process_job it.env it.faults ⟨d.id, d.job_id, d.filename, d.parser⟩
                      { st with group := some ⟨d.id, g.pending ++ [d.id]⟩ }).state).state,
                  processedIds := d.id :: (runWorkerLoop rest
                    (process_job it.env it.faults ⟨d.id, d.job_id, d.filename, d.parser⟩
                      { st with group := some ⟨d.id, g.pending ++ [d.id]⟩ }).state).processedIds,
                  skippedIds := (runWorkerLoop rest
                    (process_job it.env it.faults ⟨d.id, d.job_id, d.filename, d.parser⟩
                      { st with group := some ⟨d.id, g.pending ++ [d.id]⟩ }).state).skippedIds } := by
            simp [runWorkerLoop, hfg', hread, hfi']
          rw [hloop]
          obtain ⟨g2, hg2, hp2⟩ := ih (process_job it.env it.faults
              ⟨d.id, d.job_id, d.filename, d.parser⟩
              { st with group := some ⟨d.id, g.pending ++ [d.id]⟩ }).state
            ⟨d.id, g.pending⟩ hout
            (fun x hx => (hinv x hx).trans hcur.le) hackRest
          exact ⟨g2, hg2, hp2⟩

/-- Witness for c3_shutdown_acks_started_entries: one iteration that
claims entry 1 and processes it to completion before a later shutdown;
the pending list ends empty. -/
theorem c3_shutdown_acks_started_entries_witness :
    ∃ g2, (runWorkerLoop [⟨false, false, sampleEnv, StoreFaults.noFaults⟩]
        queuedState).state.group = some g2 ∧
      g2.pending = [] ++ (runWorkerLoop [⟨false, false, sampleEnv, StoreFaults.noFaults⟩]
        queuedState).skippedIds :=
  c3_shutdown_acks_started_entries
    [⟨false, false, sampleEnv, StoreFaults.noFaults⟩] queuedState ⟨0, []⟩
    rfl (by intro id h; simp at h)
    (by intro it hit; rw [List.mem_singleton] at hit; subst hit; rfl)

end PdfProcessor
